import Mathlib

/-!
Verification development for the gocommerce API surface.

The repository source under scrutiny is `api/api.go`, which wires the HTTP
routing table: which handler serves each (method, path) pattern and which
middlewares guard it, including the multi-instance (tenant) mode switch.
The routing table below (`routes`, `orderRoutes`, `userRoutes`) is a direct
transcription of `NewAPIWithVersion`, `orderRoutes` and `userRoutes` from
`api/api.go`.

The middleware bodies (`withToken`, `adminRequired`, `authRequired`, ...)
and the payment/order handlers live in files of this repository that are
not part of the given source; their behaviour is modelled from the spec
(sections 4.2, 4.4, 4.5 and 7), and each such definition carries a doc
comment saying so.
-/

/-- Error taxonomy of spec section 7. -/
inductive Err
  | Unauthenticated
  | Forbidden
  | UnknownTenant
  | TenantUnavailable
  | CouponNotFound
  | CouponExpired
  | CouponExhausted
  | AmountMismatch
  | OrderNotPending
  | InvalidState
  | ExcessiveRefund
  | GatewayError
  | StoreConflict
  deriving DecidableEq

/-- Caller roles (spec section 4.2: anonymous callers carry no identity). -/
inductive Role
  | user
  | admin
  deriving DecidableEq

/-- Caller identity as produced by the verified-credential decoder. -/
structure Identity where
  userID : Nat
  role : Role
  deriving DecidableEq

/-- A presented credential: `wellFormed` is false for a malformed or
expired credential (spec section 4.2). -/
structure Cred where
  wellFormed : Bool
  userID : Nat
  role : Role
  deriving DecidableEq

/-- An inbound request; `cred` is `none` for an anonymous request. -/
structure Request where
  cred : Option Cred
  deriving DecidableEq

/-- HTTP methods used in `api/api.go`. -/
inductive Method
  | GET
  | POST
  | PUT
  | DELETE
  deriving DecidableEq

/-- The middlewares registered in `api/api.go`. -/
inductive Middleware
  | xff
  | withRequestID
  | recoverer
  | logger
  | loggingDB
  | loadInstanceConfig
  | withToken
  | authRequired
  | adminRequired
  | addGetBody
  | withOrderID
  | withUser
  | ensureUserAccess
  | loadInstance
  | verifyOperatorRequest
  deriving DecidableEq

/-- The handlers registered in `api/api.go`. -/
inductive Handler
  | HealthCheck
  | OrderList
  | OrderCreate
  | OrderView
  | OrderUpdate
  | PaymentListForOrder
  | PaymentCreate
  | DownloadList
  | DownloadRefresh
  | ReceiptView
  | ResendOrderReceipt
  | UserList
  | UserBulkDelete
  | UserView
  | UserDelete
  | PaymentListForUser
  | AddressList
  | CreateNewAddress
  | AddressView
  | AddressDelete
  | DownloadURL
  | VatNumberLookup
  | PaymentList
  | PaymentView
  | PaymentRefund
  | PaymentConfirm
  | PreauthorizePayment
  | SalesReport
  | ProductsReport
  | CouponList
  | CouponView
  | ViewSettings
  | ClaimOrders
  | GetAppManifest
  | CreateInstance
  | GetInstance
  | UpdateInstance
  | DeleteInstance
  deriving DecidableEq

/-- A segment of a route pattern: a literal, or a named capture such as
`{payment_id}`. -/
inductive Seg
  | lit (s : String)
  | param (s : String)
  deriving DecidableEq

/-- A registered route: method, path pattern, middleware chain in
execution order, and the handler it dispatches to. -/
structure Route where
  method : Method
  pattern : List Seg
  chain : List Middleware
  handler : Handler
  deriving DecidableEq

/-- Middlewares installed on the top-level router before any route:
`r.UseBypass(xffmw.Handler)`, `r.Use(withRequestID)`, `r.Use(recoverer)`. -/
def baseChain : List Middleware :=
  [.xff, .withRequestID, .recoverer]

/-- Middleware chain inherited by every route inside `r.Route("/", ...)`:
logger, loggingDB, loadInstanceConfig only in MultiInstanceMode, then
withToken — in the order the source registers them. -/
def bizChain (mim : Bool) : List Middleware :=
  baseChain ++ [.logger, .loggingDB] ++ (if mim then [.loadInstanceConfig] else []) ++ [.withToken]

/-- Transcription of `(a *API) orderRoutes` from `api/api.go`; `c` is the
chain inherited from the enclosing router. -/
def orderRoutes (c : List Middleware) : List Route :=
  [ ⟨.GET, [.lit "orders"], c ++ [.authRequired], .OrderList⟩,
    ⟨.POST, [.lit "orders"], c, .OrderCreate⟩,
    ⟨.GET, [.lit "orders", .param "order_id"], c ++ [.withOrderID], .OrderView⟩,
    ⟨.PUT, [.lit "orders", .param "order_id"], c ++ [.withOrderID, .adminRequired], .OrderUpdate⟩,
    ⟨.GET, [.lit "orders", .param "order_id", .lit "payments"], c ++ [.withOrderID, .authRequired], .PaymentListForOrder⟩,
    ⟨.POST, [.lit "orders", .param "order_id", .lit "payments"], c ++ [.withOrderID, .addGetBody], .PaymentCreate⟩,
    ⟨.GET, [.lit "orders", .param "order_id", .lit "downloads"], c ++ [.withOrderID], .DownloadList⟩,
    ⟨.POST, [.lit "orders", .param "order_id", .lit "downloads", .lit "refresh"], c ++ [.withOrderID], .DownloadRefresh⟩,
    ⟨.GET, [.lit "orders", .param "order_id", .lit "receipt"], c ++ [.withOrderID], .ReceiptView⟩,
    ⟨.POST, [.lit "orders", .param "order_id", .lit "receipt"], c ++ [.withOrderID], .ResendOrderReceipt⟩ ]

/-- Transcription of `(a *API) userRoutes` from `api/api.go`. -/
def userRoutes (c : List Middleware) : List Route :=
  [ ⟨.GET, [.lit "users"], c ++ [.authRequired, .adminRequired], .UserList⟩,
    ⟨.DELETE, [.lit "users"], c ++ [.authRequired, .adminRequired], .UserBulkDelete⟩,
    ⟨.GET, [.lit "users", .param "user_id"], c ++ [.authRequired, .withUser, .ensureUserAccess], .UserView⟩,
    ⟨.DELETE, [.lit "users", .param "user_id"], c ++ [.authRequired, .withUser, .ensureUserAccess, .adminRequired], .UserDelete⟩,
    ⟨.GET, [.lit "users", .param "user_id", .lit "payments"], c ++ [.authRequired, .withUser, .ensureUserAccess], .PaymentListForUser⟩,
    ⟨.GET, [.lit "users", .param "user_id", .lit "orders"], c ++ [.authRequired, .withUser, .ensureUserAccess], .OrderList⟩,
    ⟨.GET, [.lit "users", .param "user_id", .lit "addresses"], c ++ [.authRequired, .withUser, .ensureUserAccess], .AddressList⟩,
    ⟨.POST, [.lit "users", .param "user_id", .lit "addresses"], c ++ [.authRequired, .withUser, .ensureUserAccess, .adminRequired], .CreateNewAddress⟩,
    ⟨.GET, [.lit "users", .param "user_id", .lit "addresses", .param "addr_id"], c ++ [.authRequired, .withUser, .ensureUserAccess], .AddressView⟩,
    ⟨.DELETE, [.lit "users", .param "user_id", .lit "addresses", .param "addr_id"], c ++ [.authRequired, .withUser, .ensureUserAccess, .adminRequired], .AddressDelete⟩ ]

/-- The routes registered inside `r.Route("/", ...)` in `NewAPIWithVersion`. -/
def businessRoutes (mim : Bool) : List Route :=
  orderRoutes (bizChain mim) ++ userRoutes (bizChain mim) ++
  [ ⟨.GET, [.lit "downloads"], bizChain mim ++ [.authRequired], .DownloadList⟩,
    ⟨.GET, [.lit "downloads", .param "download_id"], bizChain mim, .DownloadURL⟩,
    ⟨.GET, [.lit "vatnumbers", .param "vat_number"], bizChain mim, .VatNumberLookup⟩,
    ⟨.GET, [.lit "payments"], bizChain mim ++ [.adminRequired], .PaymentList⟩,
    ⟨.GET, [.lit "payments", .param "payment_id"], bizChain mim ++ [.adminRequired], .PaymentView⟩,
    ⟨.POST, [.lit "payments", .param "payment_id", .lit "refund"], bizChain mim ++ [.adminRequired, .addGetBody], .PaymentRefund⟩,
    ⟨.POST, [.lit "payments", .param "payment_id", .lit "confirm"], bizChain mim, .PaymentConfirm⟩,
    ⟨.POST, [.lit "paypal"], bizChain mim ++ [.addGetBody], .PreauthorizePayment⟩,
    ⟨.GET, [.lit "reports", .lit "sales"], bizChain mim ++ [.adminRequired], .SalesReport⟩,
    ⟨.GET, [.lit "reports", .lit "products"], bizChain mim ++ [.adminRequired], .ProductsReport⟩,
    ⟨.GET, [.lit "coupons"], bizChain mim ++ [.adminRequired], .CouponList⟩,
    ⟨.GET, [.lit "coupons", .param "coupon_code"], bizChain mim, .CouponView⟩,
    ⟨.GET, [.lit "settings"], bizChain mim, .ViewSettings⟩,
    ⟨.POST, [.lit "claim"], bizChain mim ++ [.authRequired], .ClaimOrders⟩ ]

/-- Chain for the operator microservice routes (`/instances` block):
logger, loggingDB, verifyOperatorRequest. -/
def operatorChain : List Middleware :=
  baseChain ++ [.logger, .loggingDB, .verifyOperatorRequest]

/-- The routes registered only when `globalConfig.MultiInstanceMode` holds:
the operator manifest route and the `/instances` block. -/
def operatorRoutes : List Route :=
  [ ⟨.GET, [], operatorChain, .GetAppManifest⟩,
    ⟨.POST, [.lit "instances"], operatorChain, .CreateInstance⟩,
    ⟨.GET, [.lit "instances", .param "instance_id"], operatorChain ++ [.loadInstance], .GetInstance⟩,
    ⟨.PUT, [.lit "instances", .param "instance_id"], operatorChain ++ [.loadInstance], .UpdateInstance⟩,
    ⟨.DELETE, [.lit "instances", .param "instance_id"], operatorChain ++ [.loadInstance], .DeleteInstance⟩ ]

/-- The complete routing table built by `NewAPIWithVersion`, as a function
of `MultiInstanceMode`. -/
def routes (mim : Bool) : List Route :=
  [⟨.GET, [.lit "health"], baseChain, .HealthCheck⟩] ++
  businessRoutes mim ++
  (if mim then operatorRoutes else [])

/-- Does a pattern segment accept a concrete path segment? A capture
accepts anything. -/
def matchSeg : Seg → String → Bool
  | .lit s, t => s == t
  | .param _, _ => true

/-- Pattern match of a route pattern against a concrete path. -/
def matchPath : List Seg → List String → Bool
  | [], [] => true
  | p :: ps, t :: ts => matchSeg p t && matchPath ps ts
  | _, _ => false

/-- Modelled from the spec: the middleware implementations (`withToken`,
`authRequired`, `adminRequired`, and the context/logging middlewares) are
in repository files outside the given source. Spec section 4.2:
`authenticate` fails `Unauthenticated` on a missing/malformed/expired
credential; `authorize` fails `Forbidden` on insufficient role; the
routes that admit anonymous callers carry no `authRequired` guard, so
`withToken` passes a credential-less request through with no identity.
All non-guard middlewares are pure pass-throughs for identity purposes. -/
def applyMw (req : Request) (ident : Option Identity) : Middleware → Except Err (Option Identity)
  | .withToken =>
      match req.cred with
      | none => .ok none
      | some c => if c.wellFormed then .ok (some ⟨c.userID, c.role⟩) else .error .Unauthenticated
  | .authRequired =>
      match ident with
      | none => .error .Unauthenticated
      | some _ => .ok ident
  | .adminRequired =>
      match ident with
      | some i => if i.role = .admin then .ok ident else .error .Forbidden
      | none => .error .Forbidden
  | _ => .ok ident

/-- Run a middleware chain in order over the caller's identity context. -/
def runChain (req : Request) : List Middleware → Option Identity → Except Err (Option Identity)
  | [], ident => .ok ident
  | m :: ms, ident =>
      match applyMw req ident m with
      | .ok ident' => runChain req ms ident'
      | .error e => .error e

/-- Dispatch a request: find the matching route, run its middleware chain,
and only if every middleware passes return the route's handler. `none`
means no route matches. The handler runs strictly after the chain by
construction. -/
def dispatch (mim : Bool) (m : Method) (path : List String) (req : Request) : Option (Except Err Handler) :=
  match (routes mim).find? (fun rt => decide (rt.method = m) && matchPath rt.pattern path) with
  | none => none
  | some rt =>
      match runChain req rt.chain none with
      | .ok _ => some (.ok rt.handler)
      | .error e => some (.error e)

/-- A request whose credential, when present, is well formed (a malformed
credential is rejected as `Unauthenticated` before any role check). -/
def credOk (req : Request) : Bool :=
  match req.cred with
  | none => true
  | some c => c.wellFormed

/-- Does the request carry a well-formed admin credential? -/
def isAdminReq (req : Request) : Bool :=
  match req.cred with
  | none => false
  | some c => c.wellFormed && decide (c.role = Role.admin)

/-- Order states of spec section 4.4. -/
inductive OrderState
  | Open
  | PendingPayment
  | Paid
  | PartiallyRefunded
  | Refunded
  | Cancelled
  deriving DecidableEq

/-- Payment states of spec section 4.5. -/
inductive PayState
  | Initiated
  | Authorized
  | Captured
  | Refunded
  | Failed
  | Voided
  deriving DecidableEq

/-- An order record: owning user is `none` for guest orders (spec
section 3); `refundedTotal` is the order-level refund bookkeeping that
`refund` maintains. Amounts are in minor currency units. -/
structure Order where
  id : Nat
  userID : Option Nat
  total : Nat
  refundedTotal : Nat
  state : OrderState
  deriving DecidableEq

/-- A payment record: owned by exactly one order; `amount` is the captured
amount once state is `Captured`; `refundedAmount` is the sum of refunds
recorded against it; `gatewayRef` is assigned on successful authorization. -/
structure Payment where
  id : Nat
  orderID : Nat
  amount : Nat
  refundedAmount : Nat
  state : PayState
  gatewayRef : Option Nat
  deriving DecidableEq

/-- Observable side effects of a payment operation: calls made to the
external gateway capability, and capture/refund notifications sent to the
Order Lifecycle Manager. -/
structure Effects where
  gatewayCalls : Nat
  captureNotices : Nat
  refundNotices : Nat
  deriving DecidableEq

/-- No gateway interaction and no notification. -/
def noEffects : Effects := ⟨0, 0, 0⟩

/-- Modelled from the spec: the `PaymentConfirm` handler's logic lives in
repository files outside the given source. Spec section 4.5, `confirm`:
idempotent — repeated confirmation of an already-`Captured` payment
returns the existing result rather than re-invoking the gateway; fails
with `InvalidState` if the payment is not `Authorized`; on success marks
`Captured` and notifies the Order Lifecycle Manager. The second component
records the gateway calls and notifications the operation performed. -/
def confirm (p : Payment) : Except Err Payment × Effects :=
  match p.state with
  | .Captured => (.ok p, noEffects)
  | .Authorized => (.ok { p with state := .Captured }, ⟨1, 1, 0⟩)
  | _ => (.error .InvalidState, noEffects)

/-- Modelled from the spec: the `PaymentRefund` handler's logic lives in
repository files outside the given source. Spec section 4.5, `refund`:
fails with `InvalidState` unless the payment is `Captured`; fails with
`ExcessiveRefund` if the amount exceeds the remaining captured
(non-refunded) amount; on success records the refund, updates the order's
refunded total and state (section 4.4: `Paid → PartiallyRefunded →
Refunded`), and notifies the Order Lifecycle Manager. An error returns no
updated entities: the caller's `Payment` and `Order` are untouched (spec
section 7: no partial mutation). -/
def refund (p : Payment) (o : Order) (amount : Nat) : Except Err (Payment × Order) × Effects :=
  match p.state with
  | .Captured =>
      if amount > p.amount - p.refundedAmount then
        (.error .ExcessiveRefund, noEffects)
      else
        let p' : Payment :=
          { p with refundedAmount := p.refundedAmount + amount,
                   state := if p.refundedAmount + amount = p.amount then PayState.Refunded else PayState.Captured }
        let o' : Order :=
          { o with refundedTotal := o.refundedTotal + amount,
                   state := if o.refundedTotal + amount = o.total then OrderState.Refunded else OrderState.PartiallyRefunded }
        (.ok (p', o'), ⟨1, 0, 1⟩)
  | _ => (.error .InvalidState, noEffects)

/-- Is the caller the owner of the resource, or an admin? (Spec section
4.2: `authorizeOwnerOrAdmin` succeeds iff `identity.userID ==
resourceOwnerID` or `identity.role == admin`; an anonymous caller is
neither.) -/
def ownerOrAdmin (ident : Option Identity) (ownerID : Option Nat) : Bool :=
  match ident with
  | some i => decide (i.role = Role.admin) || decide (some i.userID = ownerID)
  | none => false

/-- Modelled from the spec: the `OrderView` handler's logic lives in
repository files outside the given source. Spec section 4.4: `viewOrder`
restricted to owner or admin; the route-level chain for
`GET /orders/{order_id}` carries no role guard, so the handler itself
performs the `authorizeOwnerOrAdmin` check before revealing the order. -/
def viewOrder (ident : Option Identity) (o : Order) : Except Err Order :=
  if ownerOrAdmin ident o.userID then .ok o else .error .Forbidden

/-- C1: Confirming a payment is idempotent: for every payment already
`Captured`, `confirm` returns the existing payment unchanged with no
gateway call and no capture notification to the Order Lifecycle Manager;
and after any successful confirmation, a second `confirm` leaves the
payment identical and adds no further effects. -/
theorem confirm_idempotent_on_captured :
    (∀ p : Payment, p.state = PayState.Captured → confirm p = (Except.ok p, noEffects)) ∧
    (∀ p q : Payment, ∀ e : Effects, confirm p = (Except.ok q, e) →
      confirm q = (Except.ok q, noEffects)) := by
  constructor
  · intro p h
    simp [confirm, h]
  · intro p q e h
    cases hs : p.state <;> simp [confirm, hs] at h
    · obtain ⟨h1, h2⟩ := h
      subst h1
      simp [confirm]
    · obtain ⟨h1, h2⟩ := h
      subst h1
      simp [confirm, hs]

/-- Witness for C1 at a concrete captured payment. -/
theorem confirm_idempotent_on_captured_wit :
    confirm ⟨1, 1, 95, 0, PayState.Captured, some 7⟩ =
      (Except.ok (⟨1, 1, 95, 0, PayState.Captured, some 7⟩ : Payment), noEffects) :=
  confirm_idempotent_on_captured.1 _ rfl

/-- C3: a refund of more than the remaining captured (non-refunded)
amount of a captured payment fails with `ExcessiveRefund` and performs no
effect; the operation returns no updated entities, so the caller's
`Payment` and `Order` are exactly as before the request. -/
theorem refund_excessive_rejected (p : Payment) (o : Order) (amount : Nat)
    (hc : p.state = PayState.Captured) (hx : p.amount - p.refundedAmount < amount) :
    refund p o amount = (Except.error Err.ExcessiveRefund, noEffects) := by
  simp [refund, hc, hx]

/-- Witness for C3: refunding 50 against a payment of 100 with 60 already
refunded (remaining 40). -/
theorem refund_excessive_rejected_wit :
    refund ⟨1, 1, 100, 60, PayState.Captured, some 5⟩ ⟨1, some 2, 100, 60, OrderState.PartiallyRefunded⟩ 50 =
      (Except.error Err.ExcessiveRefund, noEffects) :=
  refund_excessive_rejected _ _ _ rfl (by decide)

/-- C4: viewing an order is restricted to its owner or an admin: a caller
who is neither (including an anonymous caller) gets `Forbidden`. -/
theorem order_view_owner_or_admin (ident : Option Identity) (o : Order)
    (h : ownerOrAdmin ident o.userID = false) :
    viewOrder ident o = Except.error Err.Forbidden := by
  simp [viewOrder, h]

/-- Witness for C4: user 5 requesting an order owned by user 9. -/
theorem order_view_owner_or_admin_wit :
    viewOrder (some ⟨5, Role.user⟩) ⟨1, some 9, 100, 0, OrderState.Paid⟩ =
      Except.error Err.Forbidden :=
  order_view_owner_or_admin _ _ (by decide)

/-- Is a middleware the tenant-config loader or the token middleware? -/
def tenantOrToken : Middleware → Bool
  | .loadInstanceConfig => true
  | .withToken => true
  | _ => false

/-- Is this one of the business routes named in the spec's control flow
(orders, users, downloads, payments, coupons, reports, settings, claim)? -/
def isBusinessRoute (rt : Route) : Bool :=
  match rt.pattern with
  | .lit s :: _ =>
      ["orders", "users", "downloads", "payments", "coupons", "reports", "settings", "claim"].contains s
  | _ => false

/-- C5: every business route's middleware chain contains the
tenant-config middleware exactly when MultiInstanceMode is on, and the
token middleware always, in that order; by the construction of
`dispatch`, the whole chain runs before the handler. -/
theorem business_routes_tenant_then_token (mim : Bool) :
    ∀ rt ∈ routes mim, isBusinessRoute rt = true →
      rt.chain.filter tenantOrToken =
        (if mim then [Middleware.loadInstanceConfig, Middleware.withToken] else [Middleware.withToken]) := by
  cases mim <;> decide

/-- Witness for C5 at the `GET /settings` route in multi-instance mode. -/
theorem business_routes_tenant_then_token_wit :
    (Route.mk Method.GET [Seg.lit "settings"] (bizChain true) Handler.ViewSettings).chain.filter tenantOrToken =
      [Middleware.loadInstanceConfig, Middleware.withToken] :=
  business_routes_tenant_then_token true _ (by decide) (by decide)

/-- Does the route live under the `/instances` block? -/
def isInstancesRoute (rt : Route) : Bool :=
  match rt.pattern with
  | .lit s :: _ => s == "instances"
  | _ => false

/-- C7: with MultiInstanceMode off, no `/instances` route and no operator
manifest route is registered; with it on, every `/instances` route and
the manifest route carry `verifyOperatorRequest` in their chain, and the
create/get/update/delete instance routes all exist. -/
theorem instances_routes_operator_gated :
    (∀ rt ∈ routes false, isInstancesRoute rt = false ∧ rt.handler ≠ Handler.GetAppManifest) ∧
    (∀ rt ∈ routes true, (isInstancesRoute rt = true ∨ rt.handler = Handler.GetAppManifest) →
      Middleware.verifyOperatorRequest ∈ rt.chain) ∧
    (∀ h ∈ [Handler.CreateInstance, Handler.GetInstance, Handler.UpdateInstance, Handler.DeleteInstance],
      ∃ rt ∈ routes true, rt.handler = h ∧ isInstancesRoute rt = true) :=
  ⟨by decide, by decide, by decide⟩

/-- Witness for C7 at the create-instance route. -/
theorem instances_routes_operator_gated_wit :
    Middleware.verifyOperatorRequest ∈
      (Route.mk Method.POST [Seg.lit "instances"] operatorChain Handler.CreateInstance).chain :=
  instances_routes_operator_gated.2.1 _ (by decide) (by decide)

/-- C2: the refund endpoint is admin-only: any request to
`POST /payments/{payment_id}/refund` whose (well-formed or absent)
credential does not carry the admin role is stopped by `adminRequired`
with `Forbidden`; `dispatch` returns the error, so the `PaymentRefund`
handler is never reached. -/
theorem refund_route_admin_only (mim : Bool) (pid : String) (req : Request)
    (hok : credOk req = true) (hna : isAdminReq req = false) :
    dispatch mim Method.POST ["payments", pid, "refund"] req = some (Except.error Err.Forbidden) := by
  obtain ⟨cred⟩ := req
  cases cred with
  | none => cases mim <;> rfl
  | some c =>
      obtain ⟨wf, uid, role⟩ := c
      cases wf with
      | false => exact absurd hok (by simp [credOk])
      | true =>
          cases role with
          | admin => exact absurd hna (by simp [isAdminReq])
          | user => cases mim <;> rfl

/-- Witness for C2: a non-admin user requesting a refund. -/
theorem refund_route_admin_only_wit :
    dispatch false Method.POST ["payments", "p1", "refund"] ⟨some ⟨true, 7, Role.user⟩⟩ =
      some (Except.error Err.Forbidden) :=
  refund_route_admin_only false "p1" ⟨some ⟨true, 7, Role.user⟩⟩ (by decide) (by decide)

/-- C6: updating an order is admin-only: any request to
`PUT /orders/{order_id}` without the admin role is stopped by
`adminRequired` with `Forbidden`, so the `OrderUpdate` handler is never
reached. -/
theorem order_update_admin_only (mim : Bool) (oid : String) (req : Request)
    (hok : credOk req = true) (hna : isAdminReq req = false) :
    dispatch mim Method.PUT ["orders", oid] req = some (Except.error Err.Forbidden) := by
  obtain ⟨cred⟩ := req
  cases cred with
  | none => cases mim <;> rfl
  | some c =>
      obtain ⟨wf, uid, role⟩ := c
      cases wf with
      | false => exact absurd hok (by simp [credOk])
      | true =>
          cases role with
          | admin => exact absurd hna (by simp [isAdminReq])
          | user => cases mim <;> rfl

/-- Witness for C6: a non-admin user attempting an order update. -/
theorem order_update_admin_only_wit :
    dispatch true Method.PUT ["orders", "o1"] ⟨some ⟨true, 7, Role.user⟩⟩ =
      some (Except.error Err.Forbidden) :=
  order_update_admin_only true "o1" ⟨some ⟨true, 7, Role.user⟩⟩ (by decide) (by decide)

/-- C8: order creation admits guests: `POST /orders` carries no
`authRequired` middleware, and any request with a well-formed or absent
credential — in particular a credential-less one — reaches the
`OrderCreate` handler rather than failing `Unauthenticated`. -/
theorem order_create_guest_allowed (mim : Bool) (req : Request) (hok : credOk req = true) :
    dispatch mim Method.POST ["orders"] req = some (Except.ok Handler.OrderCreate) ∧
    (∀ rt ∈ routes mim, rt.handler = Handler.OrderCreate → Middleware.authRequired ∉ rt.chain) := by
  constructor
  · obtain ⟨cred⟩ := req
    cases cred with
    | none => cases mim <;> rfl
    | some c =>
        obtain ⟨wf, uid, role⟩ := c
        cases wf with
        | false => exact absurd hok (by simp [credOk])
        | true => cases role <;> cases mim <;> rfl
  · cases mim <;> decide

/-- Witness for C8: an anonymous request creating an order. -/
theorem order_create_guest_allowed_wit :
    dispatch false Method.POST ["orders"] ⟨none⟩ = some (Except.ok Handler.OrderCreate) :=
  (order_create_guest_allowed false ⟨none⟩ (by decide)).1

/-- C9: `POST /payments/{payment_id}/confirm` is the only `/payments`
route without a role guard: any request with a well-formed or absent
credential reaches `PaymentConfirm` regardless of role; its chain has
neither `adminRequired` nor `authRequired`, while the list, view and
refund payment routes all carry `adminRequired`. -/
theorem payments_confirm_sole_unguarded (mim : Bool) :
    (∀ pid : String, ∀ req : Request, credOk req = true →
      dispatch mim Method.POST ["payments", pid, "confirm"] req = some (Except.ok Handler.PaymentConfirm)) ∧
    (∀ rt ∈ routes mim, rt.handler = Handler.PaymentConfirm →
      Middleware.adminRequired ∉ rt.chain ∧ Middleware.authRequired ∉ rt.chain) ∧
    (∀ rt ∈ routes mim,
      (rt.handler = Handler.PaymentList ∨ rt.handler = Handler.PaymentView ∨ rt.handler = Handler.PaymentRefund) →
      Middleware.adminRequired ∈ rt.chain) := by
  refine ⟨?_, ?_, ?_⟩
  · intro pid req hok
    obtain ⟨cred⟩ := req
    cases cred with
    | none => cases mim <;> rfl
    | some c =>
        obtain ⟨wf, uid, role⟩ := c
        cases wf with
        | false => exact absurd hok (by simp [credOk])
        | true => cases role <;> cases mim <;> rfl
  · cases mim <;> decide
  · cases mim <;> decide

/-- Witness for C9: an anonymous gateway callback confirming a payment. -/
theorem payments_confirm_sole_unguarded_wit :
    dispatch true Method.POST ["payments", "p1", "confirm"] ⟨none⟩ =
      some (Except.ok Handler.PaymentConfirm) :=
  (payments_confirm_sole_unguarded true).1 "p1" ⟨none⟩ (by decide)

/-- C10: coupon read access is asymmetric: `GET /coupons` is stopped with
`Forbidden` for any non-admin caller, while `GET /coupons/{coupon_code}`
reaches `CouponView` for every caller with a well-formed or absent
credential. -/
theorem coupon_read_asymmetric (mim : Bool) :
    (∀ req : Request, credOk req = true → isAdminReq req = false →
      dispatch mim Method.GET ["coupons"] req = some (Except.error Err.Forbidden)) ∧
    (∀ code : String, ∀ req : Request, credOk req = true →
      dispatch mim Method.GET ["coupons", code] req = some (Except.ok Handler.CouponView)) := by
  constructor
  · intro req hok hna
    obtain ⟨cred⟩ := req
    cases cred with
    | none => cases mim <;> rfl
    | some c =>
        obtain ⟨wf, uid, role⟩ := c
        cases wf with
        | false => exact absurd hok (by simp [credOk])
        | true =>
            cases role with
            | admin => exact absurd hna (by simp [isAdminReq])
            | user => cases mim <;> rfl
  · intro code req hok
    obtain ⟨cred⟩ := req
    cases cred with
    | none => cases mim <;> rfl
    | some c =>
        obtain ⟨wf, uid, role⟩ := c
        cases wf with
        | false => exact absurd hok (by simp [credOk])
        | true => cases role <;> cases mim <;> rfl

/-- Witness for C10: a non-admin user listing coupons is forbidden. -/
theorem coupon_read_asymmetric_wit :
    dispatch false Method.GET ["coupons"] ⟨some ⟨true, 3, Role.user⟩⟩ =
      some (Except.error Err.Forbidden) :=
  (coupon_read_asymmetric false).1 ⟨some ⟨true, 3, Role.user⟩⟩ (by decide) (by decide)
